import Mathlib

set_option maxHeartbeats 1000000

/-!
Shallow embedding of src/armv7l.py: the textual ARMv7 code-generation core
(operand model, instruction record rendering, instruction-stream builder).
Machine strings are Lean Strings; Python int is Int; fallible operations
return Except.  Builder operations that can raise carry the builder state at
the moment of the raise in the error, mirroring the Python evaluation order
(the rendered line is computed before any list append happens).
-/

namespace Armv7l

/-- Registers: the fallback Reg enum of the source (16 registers),
rendered as the uppercased enum member name. -/
inductive Reg
  | r0 | r1 | r2 | r3 | r4 | r5 | r6 | r7 | r8 | r9 | r10 | r11 | r12
  | sp | lr | pc
deriving DecidableEq, Repr

def Reg.toStr : Reg → String
  | .r0 => "R0" | .r1 => "R1" | .r2 => "R2" | .r3 => "R3"
  | .r4 => "R4" | .r5 => "R5" | .r6 => "R6" | .r7 => "R7"
  | .r8 => "R8" | .r9 => "R9" | .r10 => "R10" | .r11 => "R11"
  | .r12 => "R12" | .sp => "SP" | .lr => "LR" | .pc => "PC"

/-- Condition codes; AL renders as the empty string. -/
inductive Cond
  | AL | EQ | NE | CS | CC | MI | PL | VS | VC | HI | LS | GE | LT | GT | LE
deriving DecidableEq, Repr

def Cond.toStr : Cond → String
  | .AL => "" | .EQ => "EQ" | .NE => "NE" | .CS => "CS" | .CC => "CC"
  | .MI => "MI" | .PL => "PL" | .VS => "VS" | .VC => "VC" | .HI => "HI"
  | .LS => "LS" | .GE => "GE" | .LT => "LT" | .GT => "GT" | .LE => "LE"

/-- Operation tags: the fallback Ops enum of the source, rendered as the
enum member name. -/
inductive Ops
  | MOV | MVN | ADD | ADC | SUB | SBC | RSB | RSC | MUL | MLA
  | AND | ORR | EOR | BIC | LSL | LSR | ASR | ROR | RRX
  | LDR | STR | LDRB | STRB | LDRH | LDRSH | LDM | STM
  | SVC | NOP | SWP | B | BL | BX | PUSH | POP
deriving DecidableEq, Repr

def Ops.toStr : Ops → String
  | .MOV => "MOV" | .MVN => "MVN" | .ADD => "ADD" | .ADC => "ADC"
  | .SUB => "SUB" | .SBC => "SBC" | .RSB => "RSB" | .RSC => "RSC"
  | .MUL => "MUL" | .MLA => "MLA" | .AND => "AND" | .ORR => "ORR"
  | .EOR => "EOR" | .BIC => "BIC" | .LSL => "LSL" | .LSR => "LSR"
  | .ASR => "ASR" | .ROR => "ROR" | .RRX => "RRX" | .LDR => "LDR"
  | .STR => "STR" | .LDRB => "LDRB" | .STRB => "STRB" | .LDRH => "LDRH"
  | .LDRSH => "LDRSH" | .LDM => "LDM" | .STM => "STM" | .SVC => "SVC"
  | .NOP => "NOP" | .SWP => "SWP" | .B => "B" | .BL => "BL"
  | .BX => "BX" | .PUSH => "PUSH" | .POP => "POP"

/-- Immediate operand: renders as #value. -/
structure Imm where
  value : Int
deriving DecidableEq, Repr

def Imm.toStr (i : Imm) : String := "#" ++ toString i.value

/-- Shift descriptor: renders as KIND #amount. -/
structure Shift where
  kind : String
  amount : Int
deriving DecidableEq, Repr

def Shift.toStr (s : Shift) : String := s.kind ++ " #" ++ toString s.amount

/-- Memory-operand offset: either an integer constant or a register
(Python Union[int, Reg]). -/
inductive MemOffset
  | int (n : Int)
  | reg (r : Reg)
deriving DecidableEq, Repr

/-- Offset text: #decimal for an integer, canonical register name otherwise
(the expression computed at both offset-rendering sites of the Mem render). -/
def MemOffset.toStr : MemOffset → String
  | .int n => "#" ++ toString n
  | .reg r => r.toStr

/-- Memory operand (addressing expression). -/
structure Mem where
  base : Reg
  offset : Option MemOffset := none
  shift : Option Shift := none
  pre_indexed : Bool := true
  write_back : Bool := false
deriving DecidableEq, Repr

/-- The two error kinds raised by the core (ValueError in the source; the
spec names them AddressingError and InvalidLabelError). -/
inductive CGError
  | addressingError (msg : String)
  | invalidLabelError (msg : String)
deriving DecidableEq, Repr

/-- The Python sep.join over a list of strings. -/
def joinSep (sep : String) : List String → String
  | [] => ""
  | [a] => a
  | a :: b :: rest => a ++ sep ++ joinSep sep (b :: rest)

/-- Mem.__str__ of the source: builds parts = [base] (+ offset text
(+ shift text, when offset present)), then branches on the indexing mode. -/
def Mem.render (m : Mem) : Except CGError String :=
  let parts : List String :=
    [m.base.toStr] ++
      match m.offset with
      | none => []
      | some o =>
        [o.toStr] ++ (match m.shift with | none => [] | some sh => [sh.toStr])
  let inside := joinSep ", " parts
  if m.pre_indexed then
    let wb := if m.write_back then "!" else ""
    Except.ok ("[" ++ inside ++ "]" ++ wb)
  else
    match m.offset with
    | none => Except.error (CGError.addressingError "post-indexed addressing requires an offset")
    | some o =>
      let off := o.toStr
      let off2 := match m.shift with | none => off | some sh => off ++ ", " ++ sh.toStr
      Except.ok ("[" ++ m.base.toStr ++ "], " ++ off2)

/-- Operand: closed union over register, immediate, memory operand and raw
symbolic text. -/
inductive Opnd
  | reg (r : Reg)
  | imm (i : Imm)
  | mem (m : Mem)
  | raw (s : String)
deriving DecidableEq, Repr

def Opnd.render : Opnd → Except CGError String
  | .reg r => .ok r.toStr
  | .imm i => .ok i.toStr
  | .mem m => m.render
  | .raw s => .ok s

/-- Instruction record. -/
structure Instr where
  op : Ops
  operands : List Opnd := []
  cond : Cond := Cond.AL
  setflags : Bool := false
  comment : Option String := none
deriving DecidableEq, Repr

/-- The fixed set of operation names whose mnemonic never takes an S suffix
(the string set literal in Instr.__str__). -/
def noSSet : List String :=
  ["LDR", "STR", "LDRB", "STRB", "LDM", "STM", "B", "BL", "BX"]

/-- The composed mnemonic: op name + condition suffix + S suffix when
setflags is requested and the op name is outside noSSet. -/
def Instr.mnemonic (i : Instr) : String :=
  i.op.toStr ++ i.cond.toStr ++
    (if i.setflags && !(noSSet.contains i.op.toStr) then "S" else "")

/-- Python str.rstrip restricted to whitespace characters. -/
def rstrip (s : String) : String :=
  String.mk (s.data.reverse.dropWhile Char.isWhitespace).reverse

/-- Renders each operand left to right, propagating the first failure
(", ".join(str(o) for o in operands) in the source). -/
def renderOpnds : List Opnd → Except CGError (List String)
  | [] => .ok []
  | o :: rest =>
    match o.render with
    | .error e => .error e
    | .ok s =>
      match renderOpnds rest with
      | .error e => .error e
      | .ok ss => .ok (s :: ss)

/-- Instr.__str__ of the source: mnemonic, space, comma-joined operand list,
right-stripped, then the optional comment. -/
def Instr.render (i : Instr) : Except CGError String :=
  match renderOpnds i.operands with
  | .error e => .error e
  | .ok parts =>
    let ops := joinSep ", " parts
    let line := rstrip (i.mnemonic ++ " " ++ ops)
    Except.ok
      (match i.comment with
       | none => line
       | some c =>
         if c = "" then line
         else line ++ (if ops = "" then "" else " ") ++ "; " ++ c)

/-- Instruction-stream builder state: the accumulated rendered lines. -/
structure Asm where
  lines : List String := []
deriving DecidableEq, Repr

/-- Result of a builder operation that may raise: on error the builder state
at the moment the exception propagates is carried alongside the error. -/
abbrev BuildResult := Except (CGError × Asm) Asm

/-- Asm.emit: renders the instruction, then appends the line.  The render
happens before the append, so a render failure leaves the lines untouched. -/
def Asm.emit (a : Asm) (op : Ops) (operands : List Opnd) (cond : Cond)
    (s : Bool) (cmt : Option String) : BuildResult :=
  match Instr.render ⟨op, operands, cond, s, cmt⟩ with
  | .error e => .error (e, a)
  | .ok line => .ok ⟨a.lines ++ [line]⟩

/-- Asm.label: rejects an empty name or a name containing whitespace before
appending name + ":". -/
def Asm.label (a : Asm) (name : String) : BuildResult :=
  if name = "" || name.data.any Char.isWhitespace then
    .error (CGError.invalidLabelError "label must be a non-empty identifier without spaces", a)
  else
    .ok ⟨a.lines ++ [name ++ ":"]⟩

def Asm.directive (a : Asm) (t : String) : Asm := ⟨a.lines ++ [t]⟩

def Asm.commentLine (a : Asm) (t : String) : Asm := ⟨a.lines ++ ["# " ++ t]⟩

def Asm.global_ (a : Asm) (name : String) : Asm := ⟨a.lines ++ [".global " ++ name]⟩

/-- Asm.initial: the standard prologue (.section .text, .global _start,
_start:). -/
def Asm.initial : BuildResult :=
  let a : Asm := ⟨[]⟩
  let a := a.directive ".section .text"
  let a := a.global_ "_start"
  a.label "_start"

/-- The source of a mov: Union[Reg, int, Imm]; an int is wrapped into Imm. -/
inductive MovSrc
  | reg (r : Reg)
  | int (n : Int)
  | immOp (i : Imm)
deriving DecidableEq, Repr

def Asm.mov (a : Asm) (rd : Reg) (src : MovSrc) (cond : Cond) (s : Bool)
    (cmt : Option String) : BuildResult :=
  a.emit Ops.MOV
    [Opnd.reg rd,
     match src with
     | .int n => Opnd.imm ⟨n⟩
     | .reg r => Opnd.reg r
     | .immOp i => Opnd.imm i]
    cond s cmt

/-- Third operand of the data-processing helpers:
Union[Reg, int, Imm, Tuple[Reg, Shift]]. -/
inductive Op2
  | int (n : Int)
  | immOp (i : Imm)
  | reg (r : Reg)
  | shifted (rm : Reg) (sh : Shift)
deriving DecidableEq, Repr

/-- Asm._dataproc: an int becomes an Imm operand; a (register, shift) pair
becomes a single raw text operand and the emit call passes no cond/s
keywords, so the defaults (AL, no flags) apply; a register or Imm is passed
through. -/
def Asm.dataproc (a : Asm) (op : Ops) (rd rn : Reg) (op2 : Op2) (cond : Cond)
    (s : Bool) : BuildResult :=
  match op2 with
  | .int n => a.emit op [.reg rd, .reg rn, .imm ⟨n⟩] cond s none
  | .shifted rm sh =>
    a.emit op [.reg rd, .reg rn, .raw (rm.toStr ++ ", " ++ sh.toStr)] Cond.AL false none
  | .reg r => a.emit op [.reg rd, .reg rn, .reg r] cond s none
  | .immOp i => a.emit op [.reg rd, .reg rn, .imm i] cond s none

def Asm.add (a : Asm) (rd rn : Reg) (op2 : Op2) (cond : Cond) (s : Bool) : BuildResult :=
  a.dataproc Ops.ADD rd rn op2 cond s

def Asm.sub (a : Asm) (rd rn : Reg) (op2 : Op2) (cond : Cond) (s : Bool) : BuildResult :=
  a.dataproc Ops.SUB rd rn op2 cond s

def Asm.and_ (a : Asm) (rd rn : Reg) (op2 : Op2) (cond : Cond) (s : Bool) : BuildResult :=
  a.dataproc Ops.AND rd rn op2 cond s

def Asm.orr (a : Asm) (rd rn : Reg) (op2 : Op2) (cond : Cond) (s : Bool) : BuildResult :=
  a.dataproc Ops.ORR rd rn op2 cond s

def Asm.eor (a : Asm) (rd rn : Reg) (op2 : Op2) (cond : Cond) (s : Bool) : BuildResult :=
  a.dataproc Ops.EOR rd rn op2 cond s

def Asm.ldr (a : Asm) (rd : Reg) (address : Mem) (cond : Cond) : BuildResult :=
  a.emit Ops.LDR [.reg rd, .mem address] cond false none

def Asm.str (a : Asm) (rd : Reg) (address : Mem) (cond : Cond) : BuildResult :=
  a.emit Ops.STR [.reg rd, .mem address] cond false none

def Asm.strb (a : Asm) (rd : Reg) (address : Mem) (cond : Cond) : BuildResult :=
  a.emit Ops.STRB [.reg rd, .mem address] cond false none

/-- Asm.push: wraps the register list in braces as a single raw operand and
emits with the PUSH tag. -/
def Asm.push (a : Asm) (regs : List Reg) (cond : Cond) : BuildResult :=
  let reglist := "\x7b" ++ joinSep ", " (regs.map Reg.toStr) ++ "\x7d"
  a.emit Ops.PUSH [Opnd.raw reglist] cond false none

/-- Asm.pop: identical body to push, emitting with the PUSH tag (the source
reuses Ops.PUSH here). -/
def Asm.pop (a : Asm) (regs : List Reg) (cond : Cond) : BuildResult :=
  let reglist := "\x7b" ++ joinSep ", " (regs.map Reg.toStr) ++ "\x7d"
  a.emit Ops.PUSH [Opnd.raw reglist] cond false none

/-- Asm.svc: emits SVC with the raw operand #0. -/
def Asm.svc (a : Asm) : BuildResult :=
  a.emit Ops.SVC [Opnd.raw "#0"] Cond.AL false none

/-- The endswith newline check of the source: true when the last character is a
newline. -/
def endsWithNL (l : String) : Bool := l.data.getLast? == some (Char.ofNat 10)

/-- Asm.text: lines joined by newline, plus one trailing newline when the
stream is non-empty and its last line does not already end in a newline. -/
def Asm.text (a : Asm) : String :=
  joinSep "\n" a.lines ++
    (match a.lines.getLast? with
     | none => ""
     | some l => if endsWithNL l then "" else "\n")

/-! Theorems settling the claims. -/

/-- C1 counterexample: a pre-indexed memory operand with no offset but with
the write-back flag set renders with a trailing exclamation mark, refuting
the claim that the rendering is always bracket-base-bracket alone. -/
theorem c1_counterexample :
    (Mem.mk Reg.r0 none none true true).render = Except.ok "[R0]!" ∧
    ("[R0]!" : String) ≠ "[R0]" := ⟨rfl, by decide⟩

/-- C1 (amended): for every pre-indexed memory operand whose offset is
absent, rendering yields bracket-base-bracket followed by an exclamation
mark exactly when the write-back flag is set: the write-back flag is
observable even without an offset. -/
theorem c1_no_offset_writeback (m : Mem) (hpre : m.pre_indexed = true)
    (hoff : m.offset = none) :
    m.render = Except.ok ("[" ++ m.base.toStr ++ "]" ++ (if m.write_back then "!" else "")) := by
  obtain ⟨b, off, shf, pre, wb⟩ := m
  simp only at hpre hoff
  subst hpre hoff
  simp [Mem.render, joinSep]

/-- C1 witness: concrete evaluation of the amended claim at base R1 with
write-back set. -/
theorem c1_witness :
    (Mem.mk Reg.r1 none none true true).pre_indexed = true ∧
    (Mem.mk Reg.r1 none none true true).offset = none ∧
    (Mem.mk Reg.r1 none none true true).render = Except.ok "[R1]!" :=
  ⟨rfl, rfl, c1_no_offset_writeback (Mem.mk Reg.r1 none none true true) rfl rfl⟩

/-- C2: for every register list and condition code, pop appends exactly the
line push would append, and that line is the rendering of an instruction
whose operation tag is PUSH and whose single operand is the brace-wrapped
comma-joined register list. -/
theorem c2_pop_emits_push_line (a : Asm) (regs : List Reg) (cond : Cond) :
    a.pop regs cond = a.push regs cond ∧
    ∃ l, a.push regs cond = Except.ok ⟨a.lines ++ [l]⟩ ∧
      Instr.render ⟨Ops.PUSH,
        [Opnd.raw ("\x7b" ++ joinSep ", " (regs.map Reg.toStr) ++ "\x7d")],
        cond, false, none⟩ = Except.ok l :=
  ⟨rfl, ⟨_, rfl, rfl⟩⟩

/-- C3 counterexample: a memory operand whose offset is the integer
constant 4 and which carries the shift LSL 2 renders with the shift text
present, refuting the claim that a shift is applied only when the offset is
a register. -/
theorem c3_counterexample :
    (Mem.mk Reg.r0 (some (MemOffset.int 4)) (some (Shift.mk "LSL" 2)) true false).render
      = Except.ok "[R0, #4, LSL #2]" ∧
    (Shift.mk "LSL" 2).toStr.data <:+: ("[R0, #4, LSL #2]" : String).data :=
  ⟨rfl, by decide⟩

/-- C3 (amended): the shift text is rendered whenever an offset is present,
be it an integer constant or a register; only when the offset is absent is
the supplied shift ignored (the pre-indexed rendering is then exactly
bracket-base-bracket plus the optional write-back mark). -/
theorem c3_shift_rendered_iff_offset (m : Mem) (sh : Shift) (hsh : m.shift = some sh) :
    (∀ o, m.offset = some o → ∃ s, m.render = Except.ok s ∧ sh.toStr.data <:+: s.data) ∧
    (m.offset = none → m.pre_indexed = true →
      m.render = Except.ok ("[" ++ m.base.toStr ++ "]" ++ (if m.write_back then "!" else ""))) := by
  obtain ⟨b, off, shf, pre, wb⟩ := m
  simp only at hsh
  subst hsh
  constructor
  · intro o ho
    simp only at ho
    subst ho
    cases pre
    · refine ⟨_, rfl, ?_⟩
      exact ⟨("[" ++ b.toStr ++ "], " ++ (o.toStr ++ ", ")).data, [], by simp⟩
    · refine ⟨_, rfl, ?_⟩
      exact ⟨("[" ++ (b.toStr ++ ", " ++ (o.toStr ++ ", "))).data,
        ("]" ++ (if wb then "!" else "")).data, by simp [joinSep]⟩
  · intro hoff hpre
    simp only at hoff hpre
    subst hoff hpre
    simp [Mem.render, joinSep]

/-- C3 witness: concrete evaluation of the amended claim at a register
offset with shift ASR 3. -/
theorem c3_witness :
    (Mem.mk Reg.r0 (some (MemOffset.reg Reg.r1)) (some (Shift.mk "ASR" 3)) true false).shift
      = some (Shift.mk "ASR" 3) ∧
    ∃ s, (Mem.mk Reg.r0 (some (MemOffset.reg Reg.r1)) (some (Shift.mk "ASR" 3)) true false).render
      = Except.ok s ∧ (Shift.mk "ASR" 3).toStr.data <:+: s.data :=
  ⟨rfl, (c3_shift_rendered_iff_offset _ _ rfl).1 (MemOffset.reg Reg.r1) rfl⟩

/-- C4: every data-processing convenience call (add, sub, and_, orr, eor)
whose third operand is a register-plus-shift pair reduces to an emit whose
third operand is the single raw string formed from the register text, a
comma-space, and the shift text, with condition AL and flags-not-set
regardless of the requested condition and flag-set arguments; the appended
line is the rendering of that unconditional, unflagged instruction, whose
mnemonic is the bare operation name. -/
theorem c4_shifted_op2_drops_cond_flags (a : Asm) (rd rn rm : Reg) (sh : Shift)
    (cond : Cond) (s : Bool) :
    (a.add rd rn (Op2.shifted rm sh) cond s
       = a.emit Ops.ADD [Opnd.reg rd, Opnd.reg rn, Opnd.raw (rm.toStr ++ ", " ++ sh.toStr)]
           Cond.AL false none) ∧
    (a.sub rd rn (Op2.shifted rm sh) cond s
       = a.emit Ops.SUB [Opnd.reg rd, Opnd.reg rn, Opnd.raw (rm.toStr ++ ", " ++ sh.toStr)]
           Cond.AL false none) ∧
    (a.and_ rd rn (Op2.shifted rm sh) cond s
       = a.emit Ops.AND [Opnd.reg rd, Opnd.reg rn, Opnd.raw (rm.toStr ++ ", " ++ sh.toStr)]
           Cond.AL false none) ∧
    (a.orr rd rn (Op2.shifted rm sh) cond s
       = a.emit Ops.ORR [Opnd.reg rd, Opnd.reg rn, Opnd.raw (rm.toStr ++ ", " ++ sh.toStr)]
           Cond.AL false none) ∧
    (a.eor rd rn (Op2.shifted rm sh) cond s
       = a.emit Ops.EOR [Opnd.reg rd, Opnd.reg rn, Opnd.raw (rm.toStr ++ ", " ++ sh.toStr)]
           Cond.AL false none) ∧
    (∀ op : Ops, ∃ l, a.dataproc op rd rn (Op2.shifted rm sh) cond s
        = Except.ok ⟨a.lines ++ [l]⟩ ∧
      Instr.render ⟨op, [Opnd.reg rd, Opnd.reg rn, Opnd.raw (rm.toStr ++ ", " ++ sh.toStr)],
        Cond.AL, false, none⟩ = Except.ok l ∧
      Instr.mnemonic ⟨op, [Opnd.reg rd, Opnd.reg rn, Opnd.raw (rm.toStr ++ ", " ++ sh.toStr)],
        Cond.AL, false, none⟩ = op.toStr) := by
  refine ⟨rfl, rfl, rfl, rfl, rfl, ?_⟩
  intro op
  refine ⟨_, rfl, rfl, ?_⟩
  simp [Instr.mnemonic, Cond.toStr]

/-- C5: for every instruction record with the flag-set flag requested, the
composed mnemonic gains an S after the condition suffix exactly when the
operation name lies outside the fixed exclusion set LDR, STR, LDRB, STRB,
LDM, STM, B, BL, BX; inside that set no S is ever appended. -/
theorem c5_flagset_suffix (i : Instr) (h : i.setflags = true) :
    (noSSet.contains i.op.toStr = true → i.mnemonic = i.op.toStr ++ i.cond.toStr) ∧
    (noSSet.contains i.op.toStr = false → i.mnemonic = i.op.toStr ++ i.cond.toStr ++ "S") := by
  constructor <;> intro hc <;> simp at hc <;> simp [Instr.mnemonic, h, hc]

/-- C5 witness: with flags requested, LDR (in the exclusion set) renders as
LDR while ADD (outside it) renders as ADDS. -/
theorem c5_witness :
    (Instr.mk Ops.LDR [] Cond.AL true none).setflags = true ∧
    noSSet.contains (Instr.mk Ops.LDR [] Cond.AL true none).op.toStr = true ∧
    (Instr.mk Ops.LDR [] Cond.AL true none).mnemonic = "LDR" ∧
    noSSet.contains (Instr.mk Ops.ADD [] Cond.AL true none).op.toStr = false ∧
    (Instr.mk Ops.ADD [] Cond.AL true none).mnemonic = "ADDS" := by
  refine ⟨rfl, by decide, ?_, by decide, ?_⟩
  · exact (c5_flagset_suffix (Instr.mk Ops.LDR [] Cond.AL true none) rfl).1 (by decide)
  · exact (c5_flagset_suffix (Instr.mk Ops.ADD [] Cond.AL true none) rfl).2 (by decide)

/-- C6: rendering a post-indexed memory operand fails, with the addressing
error, exactly when the offset is absent; with an offset present it renders
as bracket-base-bracket, comma-space, the offset text, then comma-space and
the shift text when a shift is present. -/
theorem c6_post_indexed_render (m : Mem) (h : m.pre_indexed = false) :
    ((∃ e, m.render = Except.error e) ↔ m.offset = none) ∧
    (m.offset = none →
      m.render = Except.error (CGError.addressingError "post-indexed addressing requires an offset")) ∧
    (∀ o, m.offset = some o →
      m.render = Except.ok ("[" ++ m.base.toStr ++ "], " ++
        (match m.shift with
         | none => o.toStr
         | some sh => o.toStr ++ ", " ++ sh.toStr))) := by
  obtain ⟨b, off, shf, pre, wb⟩ := m
  simp only at h
  subst h
  refine ⟨?_, ?_, ?_⟩
  · cases off with
    | none => simp [Mem.render]
    | some o => cases shf <;> simp [Mem.render]
  · intro hoff
    simp only at hoff
    subst hoff
    rfl
  · intro o ho
    simp only at ho
    subst ho
    cases shf <;> rfl

/-- C6 witness: the post-indexed operand with base R0 and offset 4 renders
as the bracketed base followed by the immediate text. -/
theorem c6_witness :
    (Mem.mk Reg.r0 (some (MemOffset.int 4)) none false false).pre_indexed = false ∧
    (Mem.mk Reg.r0 (some (MemOffset.int 4)) none false false).render = Except.ok "[R0], #4" :=
  ⟨rfl, (c6_post_indexed_render (Mem.mk Reg.r0 (some (MemOffset.int 4)) none false false)
    rfl).2.2 (MemOffset.int 4) rfl⟩

/-- C7: the standard prologue followed by a move of immediate 5 into R0 and
the supervisor-call convenience flattens to exactly the five expected
lines, newline-joined with a single trailing newline. -/
theorem c7_prologue_mov_svc_text :
    (do
      let a ← Asm.initial
      let a ← a.mov Reg.r0 (MovSrc.int 5) Cond.AL false none
      let a ← a.svc
      Except.ok a.text : Except (CGError × Asm) String) =
    Except.ok ".section .text\n.global _start\n_start:\nMOV R0, #5\nSVC #0\n" := rfl

/-- C8: the label operation fails with the invalid-label error exactly when
the name is empty or contains a whitespace character, and otherwise appends
the name followed by a colon. -/
theorem c8_label_validation (a : Asm) (name : String) :
    (a.label name
        = Except.error (CGError.invalidLabelError "label must be a non-empty identifier without spaces", a)
      ↔ (name = "" ∨ name.data.any Char.isWhitespace = true)) ∧
    (¬(name = "" ∨ name.data.any Char.isWhitespace = true) →
      a.label name = Except.ok ⟨a.lines ++ [name ++ ":"]⟩) := by
  by_cases h1 : name = "" <;> by_cases h2 : name.data.any Char.isWhitespace = true <;>
    simp [Asm.label, h1, h2]

/-- C8 witness: label loop1 succeeds and appends the colon-terminated line,
while the empty name and a name with a space both fail. -/
theorem c8_witness :
    ¬(("loop1" : String) = "" ∨ ("loop1" : String).data.any Char.isWhitespace = true) ∧
    (Asm.mk []).label "loop1" = Except.ok (Asm.mk ["loop1:"]) ∧
    (Asm.mk []).label ""
      = Except.error (CGError.invalidLabelError "label must be a non-empty identifier without spaces", Asm.mk []) ∧
    (Asm.mk []).label "a b"
      = Except.error (CGError.invalidLabelError "label must be a non-empty identifier without spaces", Asm.mk []) := by
  refine ⟨by decide, ?_, ?_, ?_⟩
  · exact (c8_label_validation (Asm.mk []) "loop1").2 (by decide)
  · exact (c8_label_validation (Asm.mk []) "").1.mpr (by decide)
  · exact (c8_label_validation (Asm.mk []) "a b").1.mpr (by decide)

/-- C9: error atomicity of the builder: whenever label, emit, or the
load/store conveniences built on emit raise, the carried builder state has
exactly the line sequence that was accumulated before the failing call. -/
theorem c9_error_atomicity (a : Asm) :
    (∀ name e a2, a.label name = Except.error (e, a2) → a2.lines = a.lines) ∧
    (∀ op operands cond s cmt e a2,
      a.emit op operands cond s cmt = Except.error (e, a2) → a2.lines = a.lines) ∧
    (∀ rd m cond e a2, a.ldr rd m cond = Except.error (e, a2) → a2.lines = a.lines) ∧
    (∀ rd m cond e a2, a.str rd m cond = Except.error (e, a2) → a2.lines = a.lines) := by
  have hemit : ∀ op operands cond s cmt e a2,
      a.emit op operands cond s cmt = Except.error (e, a2) → a2.lines = a.lines := by
    intro op operands cond s cmt e a2 h
    unfold Asm.emit at h
    split at h
    · simp only [Except.error.injEq, Prod.mk.injEq] at h
      rw [← h.2]
    · exact Except.noConfusion h
  refine ⟨?_, hemit, ?_, ?_⟩
  · intro name e a2 h
    unfold Asm.label at h
    split at h
    · simp only [Except.error.injEq, Prod.mk.injEq] at h
      rw [← h.2]
    · exact Except.noConfusion h
  · intro rd m cond e a2 h
    exact hemit _ _ _ _ _ _ _ h
  · intro rd m cond e a2 h
    exact hemit _ _ _ _ _ _ _ h

/-- C9 witness: a failing label call and a failing post-indexed load both
carry back the untouched one-line stream. -/
theorem c9_witness :
    (Asm.mk ["x:"]).label "a b"
      = Except.error (CGError.invalidLabelError "label must be a non-empty identifier without spaces", Asm.mk ["x:"]) ∧
    (Asm.mk ["x:"]).ldr Reg.r0 (Mem.mk Reg.r1 none none false false) Cond.AL
      = Except.error (CGError.addressingError "post-indexed addressing requires an offset", Asm.mk ["x:"]) ∧
    (Asm.mk ["x:"]).lines = ["x:"] := by
  refine ⟨rfl, rfl, ?_⟩
  exact (c9_error_atomicity (Asm.mk ["x:"])).1 "a b" _ (Asm.mk ["x:"]) rfl

/-- C10: push and pop called with an empty register list raise no error and
append the composed mnemonic, one space, and the empty brace pair. -/
theorem c10_push_pop_empty_reglist (a : Asm) (cond : Cond) :
    a.push [] cond = Except.ok ⟨a.lines ++
      [Instr.mnemonic ⟨Ops.PUSH, [Opnd.raw "\x7b\x7d"], cond, false, none⟩ ++ " \x7b\x7d"]⟩ ∧
    a.pop [] cond = Except.ok ⟨a.lines ++
      [Instr.mnemonic ⟨Ops.PUSH, [Opnd.raw "\x7b\x7d"], cond, false, none⟩ ++ " \x7b\x7d"]⟩ := by
  cases cond <;> exact ⟨rfl, rfl⟩

end Armv7l
